import Mathlib

/-!
# Verification of the `dspy_bridge.py` worker (snakepit_dspy)

Shallow embedding of `src/priv/python/dspy_bridge.py` and proofs about it.

Modelling conventions:
* Byte streams (`sys.stdin.buffer` / `sys.stdout.buffer`) are `List Nat`
  (each element a byte value); `read(n)` on a buffered stream returns
  `take n` and consumes those bytes (`drop n`), returning fewer than `n`
  bytes only at end of stream, exactly the source's blocking semantics.
* The JSON layer (`json.loads` / `json.dumps`) is the Python standard
  library, external to this repository; it is abstracted as a pair
  `ser : α → List Nat` / `parse : List Nat → Option α` where `parse`
  returning `none` models a raised decode/parse exception.
* Python dicts are association lists `List (String × v)` with
  insertion-order iteration; `setKV` is dict assignment (replace in place
  or append), `getKV` is lookup.
* Python values stored into output mappings are modelled as `String`
  (the recreation path applies `str(...)` to every extracted value, which
  is the identity on this value domain).
* Each distinct error-raising/formatting site of the source is one
  constructor of `ErrMsg`; `ErrMsg.text` renders the source's f-string
  (traceback suffixes, which are runtime artefacts, are omitted).
* Wall-clock `time.time()` is an explicit `now : Nat` parameter.
-/

/-- Dict lookup: `m.get(k)` / `k in m`. -/
def getKV {α : Type} (m : List (String × α)) (k : String) : Option α :=
  match m with
  | [] => none
  | kv :: rest => if kv.1 = k then some kv.2 else getKV rest k

/-- Dict assignment `m[k] = v`: replaces in place if the key exists,
otherwise appends (Python dict insertion-order semantics). -/
def setKV {α : Type} (m : List (String × α)) (k : String) (v : α) :
    List (String × α) :=
  match m with
  | [] => [(k, v)]
  | kv :: rest => if kv.1 = k then (k, v) :: rest else kv :: setKV rest k v

theorem getKV_setKV_self {α : Type} (m : List (String × α)) (k : String) (v : α) :
    getKV (setKV m k v) k = some v := by
  induction m with
  | nil => simp [getKV, setKV]
  | cons kv rest ih =>
    by_cases h : kv.1 = k
    · simp [getKV, setKV, h]
    · simp [getKV, setKV, h, ih]

theorem getKV_setKV_ne {α : Type} (m : List (String × α)) (k k' : String) (v : α)
    (h : k' ≠ k) : getKV (setKV m k v) k' = getKV m k' := by
  induction m with
  | nil => simp [getKV, setKV, Ne.symm h]
  | cons kv rest ih =>
    by_cases hk : kv.1 = k
    · simp [getKV, setKV, hk, Ne.symm h]
    · simp [getKV, setKV, hk, ih]

/-! ## Frame codec (`ProtocolHandler.read_message` / `write_message`,
source lines 633–672) -/

/-- `struct.pack('>I', n)`: the 4 bytes of `n` in big-endian order. -/
def u32be (n : Nat) : List Nat :=
  [n / 2 ^ 24 % 256, n / 2 ^ 16 % 256, n / 2 ^ 8 % 256, n % 256]

/-- `struct.unpack('>I', bs)[0]`: recombine big-endian bytes. -/
def unpackBE (bs : List Nat) : Nat :=
  bs.foldl (fun a b => a * 256 + b) 0

theorem u32be_length (n : Nat) : (u32be n).length = 4 := rfl

theorem unpackBE_u32be (n : Nat) (h : n < 2 ^ 32) : unpackBE (u32be n) = n := by
  simp only [unpackBE, u32be, List.foldl]
  omega

/-- `ProtocolHandler.read_message` (source lines 633–653): read a 4-byte
big-endian length header, then that many payload bytes, then parse the
payload.  Returns the parsed document (or `none`: short header, short
payload, or a parse exception — all caught and turned into `None`)
together with the not-yet-consumed remainder of the stream. -/
def read_message {α : Type} (parse : List Nat → Option α) (s : List Nat) :
    Option α × List Nat :=
  if (s.take 4).length = 4 then
    if ((s.drop 4).take (unpackBE (s.take 4))).length = unpackBE (s.take 4) then
      (parse ((s.drop 4).take (unpackBE (s.take 4))),
       (s.drop 4).drop (unpackBE (s.take 4)))
    else (none, (s.drop 4).drop (unpackBE (s.take 4)))
  else (none, s.drop 4)

/-- `ProtocolHandler.write_message` (source lines 655–672): serialize the
message, emit the 4-byte big-endian length header followed by the payload
and flush.  `struct.pack('>I', ...)` raises on a length ≥ 2^32; the
`except` clause then returns `False`, modelled as `none`. -/
def write_message {α : Type} (ser : α → List Nat) (m : α) : Option (List Nat) :=
  if (ser m).length < 2 ^ 32 then some (u32be (ser m).length ++ ser m) else none

/-- Decoding a well-formed frame: the header parses back to the payload
length, the payload is recovered exactly, and the rest of the stream is
left for the next read. -/
theorem read_message_frame {α : Type} (parse : List Nat → Option α)
    (p rest : List Nat) (hlen : p.length < 2 ^ 32) :
    read_message parse (u32be p.length ++ p ++ rest) = (parse p, rest) := by
  have htake : ((u32be p.length ++ p ++ rest).take 4) = u32be p.length := by
    rw [List.append_assoc]
    exact List.take_left' (u32be_length p.length)
  have hdrop : ((u32be p.length ++ p ++ rest).drop 4) = p ++ rest := by
    rw [List.append_assoc]
    exact List.drop_left' (u32be_length p.length)
  rw [read_message, htake, hdrop, unpackBE_u32be p.length hlen, u32be_length]
  simp [List.take_left, List.drop_left]

/-- Claim C1: for every payload byte sequence D (including the empty
payload), decoding the frame produced by encoding D yields D again:
`write_message` emits a 4-byte unsigned big-endian length L followed by
exactly L payload bytes, and `read_message` applied to that byte stream
returns the original structured document (for any serializer/deserializer
pair that round-trips on the document, e.g. the JSON codec). -/
theorem framing_roundtrip {α : Type} (ser : α → List Nat)
    (parse : List Nat → Option α) (doc : α) (rest : List Nat)
    (hrt : parse (ser doc) = some doc) (hlen : (ser doc).length < 2 ^ 32) :
    ∃ frame, write_message ser doc = some frame ∧
      read_message parse (frame ++ rest) = (some doc, rest) := by
  refine ⟨u32be (ser doc).length ++ ser doc, ?_, ?_⟩
  · rw [write_message, if_pos hlen]
  · rw [read_message_frame parse (ser doc) rest hlen, hrt]

/-- Witness for C1 at a concrete document: the identity codec on the
two-byte payload `[7, 8]`, with `[9]` left on the stream. -/
theorem framing_roundtrip_witness :
    ∃ frame, write_message (fun l => l) [7, 8] = some frame ∧
      read_message (Option.some (α := List Nat)) (frame ++ [9]) =
        (some [7, 8], [9]) :=
  framing_roundtrip (fun l => l) Option.some [7, 8] [9] rfl (by decide)

/-- Claim C2: for every input stream that yields fewer than 4 header
bytes, or whose payload yields fewer bytes than the decoded length
declares, `read_message` signals end-of-stream (returns `none`) rather
than raising an error. -/
theorem read_message_short_stream_eof {α : Type} (parse : List Nat → Option α)
    (s : List Nat)
    (h : s.length < 4 ∨ s.length - 4 < unpackBE (s.take 4)) :
    (read_message parse s).1 = none := by
  rcases h with h | h
  · have h4 : ¬ (s.take 4).length = 4 := by
      simp [List.length_take]; omega
    rw [read_message, if_neg h4]
  · by_cases h4 : (s.take 4).length = 4
    · have hshort :
          ¬ ((s.drop 4).take (unpackBE (s.take 4))).length =
            unpackBE (s.take 4) := by
        simp [List.length_take, List.length_drop]
        omega
      rw [read_message, if_pos h4, if_neg hshort]
    · rw [read_message, if_neg h4]

/-- Witness for C2: a stream delivering only 2 of the 4 header bytes. -/
theorem read_message_short_stream_eof_witness :
    (read_message (Option.some (α := List Nat)) [0, 0]).1 = none :=
  read_message_short_stream_eof Option.some [0, 0] (Or.inl (by decide))

/-! ## Data model (`DSPySignatureBuilder`, `DSPyProgramManager`,
source lines 106–314) -/

/-- One field of an Elixir-supplied signature definition; only its
`name` key is read by the source. -/
structure SigField where
  name : String
deriving DecidableEq, Repr

/-- `signature_def`: the dict with `inputs` / `outputs` lists
(`signature_def.get('inputs', [])` / `.get('outputs', [])`). -/
structure SignatureDef where
  inputs : List SigField := []
  outputs : List SigField := []
deriving DecidableEq, Repr

/-- `DSPySignatureBuilder.build_signature` (source lines 112–151), with
`DSPY_AVAILABLE`: returns the DSPy signature string
`"in1, in2 -> out1, out2"` (which determines the external
`dspy.Signature` class) and the identity field mapping built from the
concatenated input and output fields. -/
def build_signature (sd : SignatureDef) : String × List (String × String) :=
  (String.intercalate ", " (sd.inputs.map (fun f => f.name)) ++ " -> " ++
     String.intercalate ", " (sd.outputs.map (fun f => f.name)),
   (sd.inputs ++ sd.outputs).foldl (fun m f => setKV m f.name f.name) [])

/-- Each constructor is one distinct error-raising / error-formatting
site of the source; the carried data are the f-string interpolants.
`pyError` stands for an exception raised inside external (capability)
code. -/
inductive ErrMsg where
  | dspyNotAvailable
  | programIdRequired
  | signatureRequired
  | unsupportedProgramType (t : String)
  | programNotFound (pid : String)
  | programExecutionFailed (e : ErrMsg)
  | failedToExecuteProgram (e : ErrMsg)
  | dspyNotAvailableRecreate
  | noLMLoaded
  | failedToRecreate (e : ErrMsg)
  | executeProgramFailed (e : ErrMsg)
  | commandFailed (c : String) (e : ErrMsg)
  | unknownCommand (c : String)
  | pyError (msg : String)
deriving DecidableEq, Repr

/-- The error strings of the source (traceback suffixes omitted).
`\x27` is an ASCII apostrophe. -/
def ErrMsg.text : ErrMsg → String
  | .dspyNotAvailable => "DSPy is not available"
  | .programIdRequired => "Program ID is required"
  | .signatureRequired => "Signature is required"
  | .unsupportedProgramType t => "Unsupported program type: " ++ t
  | .programNotFound pid => "Program \x27" ++ pid ++ "\x27 not found"
  | .programExecutionFailed e => "Program execution failed: " ++ e.text
  | .failedToExecuteProgram e => "Failed to execute program: " ++ e.text
  | .dspyNotAvailableRecreate => "DSPy not available - cannot recreate programs"
  | .noLMLoaded => "No LM is loaded."
  | .failedToRecreate e => "Failed to recreate program: " ++ e.text
  | .executeProgramFailed e => "Execute program failed: " ++ e.text
  | .commandFailed c e => "Command \x27" ++ c ++ "\x27 failed: " ++ e.text
  | .unknownCommand c => "Unknown command: " ++ c
  | .pyError m => m

/-- The result object returned by invoking a program (a DSPy
`Prediction`).  `attrs` models the object's named attributes as read by
`hasattr`/`getattr` (values already rendered as strings); `store`,
`completions` and `dict` model the `_store`, `_completions` and
`__dict__` attributes (`none` = attribute absent). -/
structure PredResult where
  attrs : List (String × String) := []
  store : Option (List (String × String)) := none
  completions : Option (List (String × List String)) := none
  dict : Option (List (String × String)) := none
deriving DecidableEq, Repr

/-- String-keyed mapping with string values (inputs / outputs dicts). -/
abbrev KV := List (String × String)

/-- One entry of `DSPyProgramManager.programs` (source lines 183–192).
The external `dspy.Predict` object is determined by its signature class;
both are modelled by the signature string, and actually invoking the
unit is the `invoke` parameter of `execute_program`. -/
structure ProgramInfo where
  program : String
  signature_class : String
  field_mapping : List (String × String)
  signature_def : SignatureDef
  instructions : Option String
  program_type : String
  created_at : Nat
  execution_count : Nat
deriving DecidableEq, Repr

/-- `DSPyProgramManager.programs`: dict keyed by program id. -/
abbrev Registry := List (String × ProgramInfo)

/-- A command handler's result dict.  `status` is `"ok"` or `"error"`;
the remaining keys are present (`some`) exactly when the corresponding
Python dict carries them. -/
structure CmdResult where
  status : String
  error : Option ErrMsg := none
  program_id : Option String := none
  signature_def : Option SignatureDef := none
  program_type : Option String := none
  instructions : Option (Option String) := none
  created_at : Option Nat := none
  execution_count : Option Nat := none
  inputs : Option KV := none
  outputs : Option KV := none
  programs : Option (List (String × String × Nat × Nat)) := none
  count : Option Nat := none
  message : Option String := none
  supported_commands : Option (List String) := none
  execution_time : Option Nat := none
deriving DecidableEq, Repr

/-- `DSPyProgramManager.create_program` (source lines 160–205), in the
`DSPY_AVAILABLE` branch structure of the source: build the signature,
reject unsupported program types, then store the new record (dict
assignment, silently overwriting an existing id).  `now` is
`time.time()`. -/
def create_program (dspy_available : Bool) (st : Registry) (program_id : String)
    (signature_def : SignatureDef) (instructions : Option String)
    (program_type : String) (now : Nat) : Registry × CmdResult :=
  if !dspy_available then
    (st, { status := "error", error := some .dspyNotAvailable })
  else
      if program_type = "predict" then
        (setKV st program_id
          { program := (build_signature signature_def).1
            signature_class := (build_signature signature_def).1
            field_mapping := (build_signature signature_def).2
            signature_def := signature_def
            instructions := instructions
            program_type := program_type
            created_at := now
            execution_count := 0 },
         { status := "ok", program_id := some program_id,
           signature_def := some signature_def,
           program_type := some program_type })
      else
        (st, { status := "error",
               error := some (.unsupportedProgramType program_type) })

/-- The loop body of the base-path output extraction (source lines
230–233): `if hasattr(result, field_name): outputs[field_name] =
getattr(result, field_name)` — an absent attribute adds nothing. -/
def extract_step (attrs : KV) (acc : KV) (f : SigField) : KV :=
  match getKV attrs f.name with
  | some v => setKV acc f.name v
  | none => acc

/-- `DSPyProgramManager.execute_program` (source lines 207–253): look up
the record (error `Program '<id>' not found` if absent), invoke the
program (`invoke` models calling the external `dspy.Predict` object;
`.error` models a raised exception, caught and wrapped), increment the
execution counter, then copy each declared output field's attribute off
the result when present (absent attributes are skipped). -/
def execute_program (invoke : ProgramInfo → KV → Except ErrMsg PredResult)
    (st : Registry) (program_id : String) (inputs : KV) :
    Registry × CmdResult :=
  match getKV st program_id with
  | none =>
    (st, { status := "error", error := some (.programNotFound program_id) })
  | some info =>
    match invoke info inputs with
    | .error e =>
      (st, { status := "error", error := some (.programExecutionFailed e) })
    | .ok result =>
      (setKV st program_id { info with execution_count := info.execution_count + 1 },
       { status := "ok", program_id := some program_id,
         inputs := some inputs,
         outputs := some
           (info.signature_def.outputs.foldl (extract_step result.attrs) []),
         execution_count := some (info.execution_count + 1) })

/-- `DSPyProgramManager.get_program` (source lines 255–272). -/
def get_program (st : Registry) (program_id : String) : CmdResult :=
  match getKV st program_id with
  | none =>
    { status := "error", error := some (.programNotFound program_id) }
  | some info =>
    { status := "ok", program_id := some program_id,
      signature_def := some info.signature_def,
      instructions := some info.instructions,
      program_type := some info.program_type,
      created_at := some info.created_at,
      execution_count := some info.execution_count }

/-- `DSPyProgramManager.list_programs` (source lines 274–289): one
`(program_id, program_type, created_at, execution_count)` summary per
record, in dict iteration (insertion) order, plus the count. -/
def list_programs (st : Registry) : CmdResult :=
  { status := "ok",
    programs := some (st.map (fun kv =>
      (kv.1, kv.2.program_type, kv.2.created_at, kv.2.execution_count))),
    count := some st.length }

/-! ## Registry claims -/

theorem getKV_extract_fold_notmem (attrs : KV) (l : List SigField) (acc : KV)
    (n : String) (hn : n ∉ l.map (fun f => f.name)) :
    getKV (l.foldl (extract_step attrs) acc) n = getKV acc n := by
  induction l generalizing acc with
  | nil => rfl
  | cons g t ih =>
    simp only [List.map_cons, List.mem_cons, not_or] at hn
    obtain ⟨hg, ht⟩ := hn
    simp only [List.foldl_cons]
    rw [ih (extract_step attrs acc g) ht]
    cases hga : getKV attrs g.name with
    | none => simp [extract_step, hga]
    | some v => simp [extract_step, hga, getKV_setKV_ne _ _ _ _ hg]

theorem getKV_extract_fold_mem (attrs : KV) (l : List SigField) (acc : KV)
    (f : SigField) (hf : f ∈ l) (hnd : (l.map (fun g => g.name)).Nodup)
    (hacc : getKV acc f.name = none) :
    getKV (l.foldl (extract_step attrs) acc) f.name = getKV attrs f.name := by
  induction l generalizing acc with
  | nil => cases hf
  | cons g t ih =>
    simp only [List.map_cons, List.nodup_cons] at hnd
    obtain ⟨hgnot, hndt⟩ := hnd
    rcases List.mem_cons.mp hf with hfg | hft
    · subst hfg
      simp only [List.foldl_cons]
      rw [getKV_extract_fold_notmem attrs t (extract_step attrs acc f) f.name hgnot]
      cases hga : getKV attrs f.name with
      | none => simp [extract_step, hga, hacc]
      | some v => simp [extract_step, hga, getKV_setKV_self]
    · simp only [List.foldl_cons]
      have hne : f.name ≠ g.name := by
        intro he
        exact hgnot (he ▸ List.mem_map.mpr ⟨f, hft, rfl⟩)
      refine ih (extract_step attrs acc g) hft hndt ?_
      cases hga : getKV attrs g.name with
      | none => simpa [extract_step, hga] using hacc
      | some v =>
        simpa [extract_step, hga, getKV_setKV_ne _ _ _ _ hne] using hacc

/-- Claim C5: the execution counter is 0 immediately after create; each
successful registry execute call increases that record's counter by
exactly 1; an execute call whose capability invocation fails leaves the
registry (hence the counter) unchanged. -/
theorem execution_counter_semantics
    (invoke : ProgramInfo → KV → Except ErrMsg PredResult)
    (st : Registry) (pid : String) (sd : SignatureDef) (instr : Option String)
    (now : Nat) (inputs : KV) (info : ProgramInfo) (r : PredResult) (e : ErrMsg) :
    ((getKV (create_program true st pid sd instr "predict" now).1 pid).map
        (fun i => i.execution_count) = some 0) ∧
    (getKV st pid = some info → invoke info inputs = Except.ok r →
      (getKV (execute_program invoke st pid inputs).1 pid).map
          (fun i => i.execution_count) = some (info.execution_count + 1)) ∧
    (getKV st pid = some info → invoke info inputs = Except.error e →
      (execute_program invoke st pid inputs).1 = st) := by
  refine ⟨?_, ?_, ?_⟩
  · simp [create_program, getKV_setKV_self]
  · intro hf hi
    simp [execute_program, hf, hi, getKV_setKV_self]
  · intro hf hi
    simp [execute_program, hf, hi]

/-- Shared concrete fixtures for the witnesses. -/
def sig0 : SignatureDef := { inputs := [⟨"q"⟩], outputs := [⟨"a"⟩, ⟨"b"⟩] }

def info0 : ProgramInfo :=
  { program := "q -> a, b"
    signature_class := "q -> a, b"
    field_mapping := [("q", "q"), ("a", "a"), ("b", "b")]
    signature_def := sig0
    instructions := none
    program_type := "predict"
    created_at := 0
    execution_count := 0 }

def reg0 : Registry := [("p", info0)]

def r0 : PredResult := { attrs := [("a", "1")] }

def invokeOk0 : ProgramInfo → KV → Except ErrMsg PredResult :=
  fun _ _ => .ok r0

def invokeErr0 : ProgramInfo → KV → Except ErrMsg PredResult :=
  fun _ _ => .error (.pyError "boom")

/-- Witness for C5: counter 0 after create on the empty registry, 1 after
a successful execute on `reg0`, and `reg0` unchanged after a failing
invocation. -/
theorem execution_counter_semantics_witness :
    ((getKV (create_program true [] "p" sig0 none "predict" 0).1 "p").map
        (fun i => i.execution_count) = some 0) ∧
    ((getKV (execute_program invokeOk0 reg0 "p" []).1 "p").map
        (fun i => i.execution_count) = some 1) ∧
    ((execute_program invokeErr0 reg0 "p" []).1 = reg0) := by
  have h := execution_counter_semantics invokeOk0 reg0 "p" sig0 none 0 [] info0
    r0 (.pyError "boom")
  have h' := execution_counter_semantics invokeErr0 reg0 "p" sig0 none 0 [] info0
    r0 (.pyError "boom")
  exact ⟨h.1, h.2.1 rfl rfl, h'.2.2 rfl rfl⟩

/-- Claim C6: a second successful create with the same id silently
overwrites the prior record: starting from the empty registry, two
creates with the same id leave `list_programs` reporting count 1, the
registry in exactly the state a single (second) create would produce,
and the stored record's counter reset to 0. -/
theorem duplicate_create_overwrites (pid : String) (sd1 sd2 : SignatureDef)
    (i1 i2 : Option String) (t1 t2 : Nat) :
    (list_programs (create_program true
        (create_program true [] pid sd1 i1 "predict" t1).1
        pid sd2 i2 "predict" t2).1).count = some 1 ∧
    (create_program true (create_program true [] pid sd1 i1 "predict" t1).1
        pid sd2 i2 "predict" t2).1
      = (create_program true [] pid sd2 i2 "predict" t2).1 ∧
    (getKV (create_program true (create_program true [] pid sd1 i1 "predict" t1).1
        pid sd2 i2 "predict" t2).1 pid).map (fun i => i.execution_count)
      = some 0 := by
  refine ⟨?_, ?_, ?_⟩
  · simp [create_program, list_programs, setKV]
  · simp [create_program, setKV]
  · simp [create_program, setKV, getKV]

/-- Claim C7: executing an id that is not in the registry fails with the
`Program '<id>' not found` error (naming the unknown id) and leaves the
registry unchanged. -/
theorem execute_unknown_id_not_found
    (invoke : ProgramInfo → KV → Except ErrMsg PredResult)
    (st : Registry) (pid : String) (inputs : KV)
    (h : getKV st pid = none) :
    execute_program invoke st pid inputs =
      (st, { status := "error", error := some (.programNotFound pid) }) ∧
    (ErrMsg.programNotFound pid).text = "Program \x27" ++ pid ++ "\x27 not found" := by
  constructor
  · simp [execute_program, h]
  · rfl

/-- Witness for C7 on the empty registry and id `"ghost"`. -/
theorem execute_unknown_id_not_found_witness :
    execute_program invokeOk0 [] "ghost" [] =
      ([], { status := "error", error := some (.programNotFound "ghost") }) ∧
    (ErrMsg.programNotFound "ghost").text =
      "Program \x27" ++ "ghost" ++ "\x27 not found" :=
  execute_unknown_id_not_found invokeOk0 [] "ghost" [] rfl

/-- Claim C9: in the base execute path, the output mapping holds, for
each declared output field, the result object's attribute of that name
exactly when it is present; a declared output field whose attribute is
absent is silently omitted (lookup yields `none`), and the call still
reports status ok with no error. -/
theorem base_path_output_omission
    (invoke : ProgramInfo → KV → Except ErrMsg PredResult)
    (st : Registry) (pid : String) (inputs : KV) (info : ProgramInfo)
    (r : PredResult)
    (hfind : getKV st pid = some info)
    (hinv : invoke info inputs = Except.ok r)
    (hnd : (info.signature_def.outputs.map (fun f => f.name)).Nodup) :
    ((execute_program invoke st pid inputs).2).status = "ok" ∧
    ((execute_program invoke st pid inputs).2).error = none ∧
    ∀ f ∈ info.signature_def.outputs,
      getKV (((execute_program invoke st pid inputs).2).outputs.getD []) f.name
        = getKV r.attrs f.name := by
  refine ⟨by simp [execute_program, hfind, hinv], by simp [execute_program, hfind, hinv], ?_⟩
  intro f hf
  simp only [execute_program, hfind, hinv, Option.getD_some]
  exact getKV_extract_fold_mem r.attrs _ [] f hf hnd rfl

/-- Witness for C9: on `reg0`, output field `a` is present on the result
(so copied), output field `b` is absent (so omitted), and the call is ok. -/
theorem base_path_output_omission_witness :
    ((execute_program invokeOk0 reg0 "p" []).2).status = "ok" ∧
    ((execute_program invokeOk0 reg0 "p" []).2).error = none ∧
    getKV (((execute_program invokeOk0 reg0 "p" []).2).outputs.getD []) "a"
      = some "1" ∧
    getKV (((execute_program invokeOk0 reg0 "p" []).2).outputs.getD []) "b"
      = none := by
  have h := base_path_output_omission invokeOk0 reg0 "p" [] info0 r0 rfl rfl
    (by decide)
  refine ⟨h.1, h.2.1, ?_, ?_⟩
  · exact (h.2.2 ⟨"a"⟩ (by decide)).trans rfl
  · exact (h.2.2 ⟨"b"⟩ (by decide)).trans rfl

/-! ## Stateless recreation path (`DSPyBridge`, source lines 423–596) -/

/-- The transient program info dict returned by
`_recreate_program_from_data` (source lines 476–485).  As for
`ProgramInfo`, the external `dspy.Predict` object is modelled by its
signature string. -/
structure RecInfo where
  program : String
  field_mapping : List (String × String)
  signature_def : SignatureDef
  program_id : Option String := none
  created_at : Option Nat := none
  execution_count : Nat := 0
  last_executed : Option Nat := none
deriving DecidableEq, Repr

/-- The serialized program snapshot supplied as `program_data`
(`program_data.get('signature_def', {})` etc., with the source's
defaults for absent keys). -/
structure ProgramData where
  signature_def : SignatureDef := {}
  program_id : Option String := none
  created_at : Option Nat := none
  execution_count : Nat := 0
  last_executed : Option Nat := none
deriving DecidableEq, Repr

/-- `DSPyBridge._recreate_program_from_data` (source lines 450–490).
`current_lm` is the process-wide language-model singleton (a live handle
or `None`).  The `raise RuntimeError("No LM is loaded.")` inside the
`try` block is re-raised wrapped as `Failed to recreate program: ...`;
the `DSPY_AVAILABLE` guard raises before the `try` block, unwrapped. -/
def recreate_program_from_data (dspy_available : Bool) (current_lm : Option Unit)
    (program_data : ProgramData) : Except ErrMsg RecInfo :=
  if !dspy_available then .error .dspyNotAvailableRecreate
  else
    let sc_fm := build_signature program_data.signature_def
    if current_lm.isNone then .error (.failedToRecreate .noLMLoaded)
    else .ok
      { program := sc_fm.1
        field_mapping := sc_fm.2
        signature_def := program_data.signature_def
        program_id := program_data.program_id
        created_at := program_data.created_at
        execution_count := program_data.execution_count
        last_executed := program_data.last_executed }

/-- `'[' in str(v) and ']' in str(v)` — the heuristic for a
placeholder-looking extracted value (source lines 549, 581); membership
of a single character is membership in the character list. -/
def hasBrackets (s : String) : Bool :=
  s.data.contains '[' && s.data.contains ']'

/-- Python `repr` of the `_store` dict as interpolated into the
diagnostic f-string (`\x7b`/`\x7d` are ASCII braces, `\x27` an ASCII
apostrophe). -/
def reprStore (st : List (String × String)) : String :=
  "\x7b" ++ String.intercalate ", "
    (st.map (fun kv => "\x27" ++ kv.1 ++ "\x27: \x27" ++ kv.2 ++ "\x27")) ++ "\x7d"

/-- The diagnostic placeholder written per expected output field when no
real output was extracted (source line 584). -/
def diagPlaceholder (r : PredResult) : String :=
  "[DEBUG: Empty completions, LM may not be responding. Store: " ++
    (match r.store with
     | some st => reprStore st
     | none => "N/A") ++ "]"

/-- Input translation through the field mapping (source lines 499–502):
`dspy_inputs[field_mapping.get(key, key)] = value`. -/
def map_inputs (fm : List (String × String)) (inputs : KV) : KV :=
  inputs.foldl (fun acc kv => setKV acc ((getKV fm kv.1).getD kv.1) kv.2) []

/-- Extraction strategies 1–3 of `_execute_with_program_info` (source
lines 521–578): (1) field-mapping based extraction with explicit
`Field '<name>' not found in prediction.` placeholders for missing
attributes; (2) if that produced nothing, direct attribute access by
declared output name; (3) if still empty or every value looks
bracket-placeholder-like, DSPy-internal extraction from `_store`, then
`_completions` (first completion to the first declared output field),
then the non-private `__dict__` entries except `completions`. -/
def extract_outputs (program_info : RecInfo) (result : PredResult) : KV :=
  let expected_outputs := program_info.signature_def.outputs
  let fm := program_info.field_mapping
  let outputs1 : KV :=
    if fm.isEmpty then [] else
      fm.foldl (fun acc p =>
        if expected_outputs.any (fun f => f.name = p.1) then
          match getKV result.attrs p.2 with
          | some v => setKV acc p.1 v
          | none =>
            setKV acc p.1 ("Field \x27" ++ p.2 ++ "\x27 not found in prediction.")
        else acc) []
  let outputs2 : KV :=
    if outputs1.isEmpty then
      expected_outputs.foldl (fun acc f =>
        match getKV result.attrs f.name with
        | some v => setKV acc f.name v
        | none =>
          setKV acc f.name ("Field \x27" ++ f.name ++ "\x27 not found in prediction.")) []
    else outputs1
  if outputs2.isEmpty || outputs2.all (fun kv => hasBrackets kv.2) then
    let oA : KV :=
      match result.store with
      | some st =>
        if st.isEmpty then outputs2 else
          (expected_outputs.map (fun f => f.name)).foldl (fun acc ef =>
            match getKV st ef with
            | some v => setKV acc ef v
            | none => acc) outputs2
      | none => outputs2
    let oB : KV :=
      match result.completions with
      | some comps =>
        if comps.isEmpty then oA else
          match comps.head? with
          | some kv =>
            if kv.2.isEmpty then oA
            else
              match expected_outputs.head? with
              | some f0 => setKV oA f0.name (kv.2.headD "")
              | none => oA
          | none => oA
      | none => oA
    if oB.isEmpty then
      match result.dict with
      | some d =>
        d.foldl (fun acc kv =>
          if !kv.1.startsWith "_" && kv.1 ≠ "completions" then setKV acc kv.1 kv.2
          else acc) oB
      | none => oB
    else oB
  else outputs2

/-- The final fallback of `_execute_with_program_info` (source lines
580–584): if the extracted outputs are still empty or all
bracket-placeholder-like, write the diagnostic placeholder into every
expected output field. -/
def finalize_outputs (expected_outputs : List SigField) (r : PredResult)
    (o : KV) : KV :=
  if o.isEmpty || o.all (fun kv => hasBrackets kv.2) then
    (expected_outputs.map (fun f => f.name)).foldl
      (fun acc n => setKV acc n (diagPlaceholder r)) o
  else o

/-- `DSPyBridge._execute_with_program_info` (source lines 492–596):
translate the inputs through the field mapping, invoke the recreated
program (an exception is caught and wrapped as `Program execution
failed: ...`), run the layered output extraction, and report success.
`now` is `time.time()` of the response. -/
def execute_with_program_info (invoke : RecInfo → KV → Except ErrMsg PredResult)
    (now : Nat) (program_info : RecInfo) (inputs : KV) : CmdResult :=
  match invoke program_info (map_inputs program_info.field_mapping inputs) with
  | .error e => { status := "error", error := some (.programExecutionFailed e) }
  | .ok result =>
    { status := "ok",
      outputs := some (finalize_outputs program_info.signature_def.outputs result
        (extract_outputs program_info result)),
      program_id := program_info.program_id,
      execution_time := some now }

/-- Python truthiness of `args.get("program_id")`. -/
def truthyStr : Option String → Bool
  | none => false
  | some s => !(s == "")

/-- `DSPyBridge.handle_execute_program` (source lines 423–448): require
a truthy program id; when `program_data` is supplied take the recreation
path (a raised recreation error is caught and wrapped as `Execute
program failed: ...`), otherwise fall back to the registry. -/
def handle_execute_program (dspy_available : Bool) (current_lm : Option Unit)
    (invoke_rec : RecInfo → KV → Except ErrMsg PredResult)
    (invoke_local : ProgramInfo → KV → Except ErrMsg PredResult)
    (now : Nat) (st : Registry) (program_id : Option String) (inputs : KV)
    (program_data : Option ProgramData) : Registry × CmdResult :=
  if !truthyStr program_id then
    (st, { status := "error", error := some .programIdRequired })
  else
    match program_data with
    | some pd =>
      match recreate_program_from_data dspy_available current_lm pd with
      | .error e =>
        (st, { status := "error", error := some (.executeProgramFailed e) })
      | .ok info =>
        (st, execute_with_program_info invoke_rec now info inputs)
    | none => execute_program invoke_local st (program_id.getD "") inputs

/-- Claim C3: executing via the recreation path (program_data supplied)
with the capability linked (`DSPY_AVAILABLE`) but `current_lm` unset
fails with the `NoLanguageModelConfigured` kind — the distinguished
`No LM is loaded.` error raised at that check, wrapped by the two
failure boundaries it passes through — not a generic failure. -/
theorem recreation_no_lm_typed_error
    (invoke_rec : RecInfo → KV → Except ErrMsg PredResult)
    (invoke_local : ProgramInfo → KV → Except ErrMsg PredResult)
    (now : Nat) (st : Registry) (pid : String) (inputs : KV) (pd : ProgramData)
    (hpid : pid ≠ "") :
    handle_execute_program true none invoke_rec invoke_local now st (some pid)
        inputs (some pd)
      = (st, { status := "error",
               error := some (.executeProgramFailed (.failedToRecreate .noLMLoaded)) }) ∧
    (ErrMsg.executeProgramFailed (.failedToRecreate .noLMLoaded)).text
      = "Execute program failed: Failed to recreate program: No LM is loaded." := by
  constructor
  · have hb : (pid == "") = false := beq_eq_false_iff_ne.mpr hpid
    simp [handle_execute_program, truthyStr, hb, recreate_program_from_data]
  · rfl

/-- Fixtures for the recreation-path witnesses. -/
def recInfo0 : RecInfo :=
  { program := "q -> a"
    field_mapping := [("q", "q"), ("a", "a")]
    signature_def := { inputs := [⟨"q"⟩], outputs := [⟨"a"⟩] } }

def rBr0 : PredResult := { attrs := [("a", "[[ ## answer ## ]]")] }

def invokeRec0 : RecInfo → KV → Except ErrMsg PredResult :=
  fun _ _ => .ok rBr0

/-- Witness for C3 at concrete arguments. -/
theorem recreation_no_lm_typed_error_witness :
    handle_execute_program true none invokeRec0 invokeOk0 0 [] (some "p1")
        [] (some {})
      = ([], { status := "error",
               error := some (.executeProgramFailed (.failedToRecreate .noLMLoaded)) }) ∧
    (ErrMsg.executeProgramFailed (.failedToRecreate .noLMLoaded)).text
      = "Execute program failed: Failed to recreate program: No LM is loaded." :=
  recreation_no_lm_typed_error invokeRec0 invokeOk0 0 [] "p1" [] {} (by decide)

theorem getKV_fold_setKV_const (names : List String) (acc : KV) (c : String)
    (n : String) (h : n ∈ names ∨ getKV acc n = some c) :
    getKV (names.foldl (fun a e => setKV a e c) acc) n = some c := by
  induction names generalizing acc with
  | nil =>
    rcases h with h | h
    · cases h
    · exact h
  | cons g t ih =>
    simp only [List.foldl_cons]
    rcases h with h | h
    · rcases List.mem_cons.mp h with hg | ht
      · subst hg
        exact ih (setKV acc n c) (Or.inr (getKV_setKV_self acc n c))
      · exact ih (setKV acc g c) (Or.inl ht)
    · refine ih (setKV acc g c) (Or.inr ?_)
      by_cases hg : n = g
      · subst hg
        exact getKV_setKV_self acc n c
      · rw [getKV_setKV_ne acc g n c hg]
        exact h

/-- Claim C4: in the recreation execution path, when every extraction
strategy yields no real output (extracted outputs empty, or every
extracted value contains both a `[` and a `]`), the call still returns
status ok with no error, and the output mapping holds the diagnostic
placeholder for every declared output field — extraction failure alone
never fails the call. -/
theorem extraction_failure_ok_placeholders
    (invoke : RecInfo → KV → Except ErrMsg PredResult)
    (now : Nat) (info : RecInfo) (inputs : KV) (r : PredResult)
    (hinv : invoke info (map_inputs info.field_mapping inputs) = Except.ok r)
    (hfail : ((extract_outputs info r).isEmpty ||
              (extract_outputs info r).all (fun kv => hasBrackets kv.2)) = true) :
    (execute_with_program_info invoke now info inputs).status = "ok" ∧
    (execute_with_program_info invoke now info inputs).error = none ∧
    ∀ f ∈ info.signature_def.outputs,
      getKV ((execute_with_program_info invoke now info inputs).outputs.getD [])
          f.name
        = some (diagPlaceholder r) := by
  refine ⟨by simp [execute_with_program_info, hinv],
          by simp [execute_with_program_info, hinv], ?_⟩
  intro f hf
  simp only [execute_with_program_info, hinv, Option.getD_some]
  rw [finalize_outputs, if_pos hfail]
  exact getKV_fold_setKV_const _ _ _ _
    (Or.inl (List.mem_map.mpr ⟨f, hf, rfl⟩))

/-- Witness for C4: the only extracted value is bracket-placeholder-like,
so the declared output field `a` ends up holding the diagnostic
placeholder while the call reports ok. -/
theorem extraction_failure_ok_placeholders_witness :
    (execute_with_program_info invokeRec0 0 recInfo0 []).status = "ok" ∧
    (execute_with_program_info invokeRec0 0 recInfo0 []).error = none ∧
    getKV ((execute_with_program_info invokeRec0 0 recInfo0 []).outputs.getD [])
        "a"
      = some (diagPlaceholder rBr0) := by
  have h := extraction_failure_ok_placeholders invokeRec0 0 recInfo0 [] rBr0
    rfl (by decide)
  exact ⟨h.1, h.2.1, h.2.2 ⟨"a"⟩ (by decide)⟩

/-! ## Command dispatcher (`DSPyBridge.process_command`, source lines
598–625) and protocol loop (`ProtocolHandler.run`, source lines 674–712) -/

/-- The keys of the `handlers` dict, in its insertion order. -/
def handlerNames : List String :=
  ["ping", "configure_lm", "create_program", "execute_program",
   "get_program", "list_programs", "delete_program", "clear_session"]

/-- `DSPyBridge.process_command`: look the command up in the handler
table; a found handler is called inside a failure boundary (`runH c`
models calling the bound handler with the request args, `.error e`
modelling a raised exception, which is converted to a status-error
result); an unknown command yields an error carrying
`supported_commands = list(handlers.keys())`. -/
def process_command (runH : String → Except ErrMsg CmdResult)
    (command : String) : CmdResult :=
  if command ∈ handlerNames then
    match runH command with
    | .ok r => r
    | .error e => { status := "error", error := some (.commandFailed command e) }
  else
    { status := "error", error := some (.unknownCommand command),
      supported_commands := some handlerNames }

/-- Claim C8: a command outside the handler table yields an error result
whose `supported_commands` payload is exactly `handlerNames` — the very
list of keys the dispatch itself consults, hence all known command names
and none outside that set; a command inside the table whose handler
raises is converted into a status-error result (`Command '<c>' failed:`)
rather than propagating. -/
theorem process_command_dispatch (runH : String → Except ErrMsg CmdResult)
    (command : String) :
    (command ∉ handlerNames →
      process_command runH command =
        { status := "error", error := some (.unknownCommand command),
          supported_commands := some handlerNames }) ∧
    (command ∈ handlerNames → ∀ e, runH command = .error e →
      process_command runH command =
        { status := "error", error := some (.commandFailed command e) }) ∧
    (command ∈ handlerNames → ∀ r, runH command = .ok r →
      process_command runH command = r) := by
  refine ⟨?_, ?_, ?_⟩
  · intro h
    rw [process_command, if_neg h]
  · intro h e he
    rw [process_command, if_pos h, he]
  · intro h r hr
    rw [process_command, if_pos h, hr]

/-- Witness for C8: the unknown command `"bogus"` returns the supported
command list; the known command `"ping"` with a raising handler is
converted to a status-error result. -/
theorem process_command_dispatch_witness :
    process_command (fun _ => .error (.pyError "boom")) "bogus" =
      { status := "error", error := some (.unknownCommand "bogus"),
        supported_commands := some handlerNames } ∧
    process_command (fun _ => .error (.pyError "boom")) "ping" =
      { status := "error",
        error := some (.commandFailed "ping" (.pyError "boom")) } :=
  ⟨(process_command_dispatch (fun _ => .error (.pyError "boom")) "bogus").1
      (by decide),
   (process_command_dispatch (fun _ => .error (.pyError "boom")) "ping").2.1
      (by decide) (.pyError "boom") rfl⟩

/-- A successful `read_message` consumed at least the 4 header bytes, so
the remaining stream is strictly shorter. -/
theorem read_message_some_lt {α : Type} (parse : List Nat → Option α)
    (s : List Nat) (a : α) (s2 : List Nat)
    (h : read_message parse s = (some a, s2)) : s2.length < s.length := by
  by_cases h4 : (s.take 4).length = 4
  · have hs4 : 4 ≤ s.length := by
      simp [List.length_take] at h4
      omega
    by_cases hp : ((s.drop 4).take (unpackBE (s.take 4))).length
        = unpackBE (s.take 4)
    · rw [read_message, if_pos h4, if_pos hp] at h
      have h2 : (s.drop 4).drop (unpackBE (s.take 4)) = s2 :=
        congrArg Prod.snd h
      rw [← h2]
      simp only [List.length_drop]
      omega
    · rw [read_message, if_pos h4, if_neg hp] at h
      cases congrArg Prod.fst h
  · rw [read_message, if_neg h4] at h
    cases congrArg Prod.fst h

/-- `ProtocolHandler.run` (source lines 674–712): repeatedly read a
framed request, process it and write the framed response, stopping when
`read_message` returns `None` or when writing the response fails (a
response payload too long for the 4-byte length field).  `handle` models
lines 685–708: extract the request fields, dispatch through
`process_command` (which never raises) and build the response envelope;
`ser` serializes the response.  The returned list is the sequence of
emitted response frames. -/
def runLoop {ρ σ : Type} (parse : List Nat → Option ρ) (handle : ρ → σ)
    (ser : σ → List Nat) (s : List Nat) : List (List Nat) :=
  match hm : read_message parse s with
  | (none, _) => []
  | (some req, s2) =>
    if (ser (handle req)).length < 2 ^ 32 then
      (u32be (ser (handle req)).length ++ ser (handle req)) ::
        runLoop parse handle ser s2
    else []
termination_by s.length
decreasing_by exact read_message_some_lt parse s req s2 hm

/-- Claim C10: a well-framed message whose payload is not valid UTF-8
JSON (the parse raises, i.e. yields `none`) makes `read_message` return
the same end-of-stream marker (`none`) as a closed stream, so the
protocol loop terminates cleanly on the first malformed payload, emitting
no response frames, instead of emitting an error response and
continuing. -/
theorem malformed_payload_terminates_loop {ρ σ : Type}
    (parse : List Nat → Option ρ) (handle : ρ → σ) (ser : σ → List Nat)
    (p rest : List Nat) (hp : parse p = none) (hlen : p.length < 2 ^ 32) :
    read_message parse (u32be p.length ++ p ++ rest) = (none, rest) ∧
    read_message parse ([] : List Nat) = ((none : Option ρ), []) ∧
    runLoop parse handle ser (u32be p.length ++ p ++ rest) = [] := by
  have hframe := read_message_frame parse p rest hlen
  rw [hp] at hframe
  refine ⟨hframe, rfl, ?_⟩
  rw [runLoop]
  split
  · rfl
  · next req s2 heq =>
    rw [hframe] at heq
    cases heq

/-- Witness for C10: the frame `[0,0,0,1, 1]` (length 1, payload `[1]`)
with a parser that rejects every payload. -/
theorem malformed_payload_terminates_loop_witness :
    read_message (fun _ => (none : Option Nat)) (u32be 1 ++ [1] ++ []) =
      (none, []) ∧
    read_message (fun _ => (none : Option Nat)) ([] : List Nat) =
      ((none : Option Nat), []) ∧
    runLoop (fun _ => (none : Option Nat)) (fun n => n) (fun _ => [])
      (u32be 1 ++ [1] ++ []) = [] :=
  malformed_payload_terminates_loop (fun _ => (none : Option Nat))
    (fun n => n) (fun _ => []) [1] [] rfl (by decide)
